import Mathlib

/-!
Shallow embedding of the image-to-PDF conversion pipeline of `src/main.py`
(class `ImageToPDFConverter`, principally the method `convert_images_to_pdf`,
lines 266-339), together with theorems settling the specification claims.

Modelling conventions:
* Python floats are modelled as exact rationals (`ℚ`); pixel dimensions
  (`img.width`, `img.height`) are natural numbers as in PIL.
* PIL library calls made by the code (`Image.open`, `ImageOps.exif_transpose`,
  `Image.alpha_composite`, `convert`) are modelled by their documented
  semantics: loading (including EXIF transposition) is an environment
  function producing a decoded image or an error, and alpha compositing over
  an opaque background follows the standard alpha-over formula.
* Python's `/` raising `ZeroDivisionError` on a zero divisor is modelled
  explicitly: the page composition step returns `Except.error zeroDivisionError`
  exactly when the code's division `available_w / img.width` or
  `available_h / img.height` would divide by zero.  This check is part of the
  semantics of Python division at line 321, not a guard present in the source.
* The GUI state kept by the class is restricted to the fields the conversion
  method touches: `image_paths`, `status_text`, `output_pdf_name`.
-/

set_option autoImplicit false

namespace ImageToPDF

/-- An RGBA pixel, channels as exact rationals in `[0, 255]`;
this is the view of a pixel after PIL's `convert("RGBA")`. -/
structure Pixel where
  r : ℚ
  g : ℚ
  b : ℚ
  a : ℚ
deriving DecidableEq, Repr

/-- An opaque RGB pixel: the single consistent colour model the
normalization step produces. -/
structure RGBPixel where
  r : ℚ
  g : ℚ
  b : ℚ
deriving DecidableEq, Repr

/-- The opaque white background colour `(255, 255, 255)` used by
`Image.new("RGBA", rgba.size, (255, 255, 255, 255))` at line 303. -/
def whiteRGB : RGBPixel := ⟨255, 255, 255⟩

/-- Standard alpha-over compositing of a source pixel over the opaque white
background, per channel `out = src * srcA + dst * (1 - srcA)` with
`dst = 255` and alpha normalised to `[0,1]`.  This is the semantics of
`Image.alpha_composite(bg, rgba)` at line 304 when `bg` is fully opaque
white, followed by `convert("RGB")` dropping the (now fully opaque) alpha. -/
def alphaOverWhite (p : Pixel) : RGBPixel :=
  { r := p.r * (p.a / 255) + 255 * (1 - p.a / 255)
    g := p.g * (p.a / 255) + 255 * (1 - p.a / 255)
    b := p.b * (p.a / 255) + 255 * (1 - p.a / 255) }

/-- `convert("RGB")` on an image without transparency: keep the colour
channels, drop the (vacuous) alpha. -/
def dropAlpha (p : Pixel) : RGBPixel := ⟨p.r, p.g, p.b⟩

/-- PIL image modes distinguished by the branch at line 301. -/
inductive PILMode where
  | RGBA
  | LA
  | P
  | RGB
  | L
  | CMYK
deriving DecidableEq, Repr

/-- A decoded PIL image as seen after `Image.open` and
`ImageOps.exif_transpose` (lines 296-298): a mode, whether `"transparency"`
is a key of `img.info`, pixel dimensions, and pixel data (viewed through
`convert("RGBA")`, so modes without an alpha channel carry `a = 255`). -/
structure PILImage where
  mode : PILMode
  transparencyInfo : Bool
  width : ℕ
  height : ℕ
  px : ℕ → ℕ → Pixel

/-- The transparency test at line 301:
`img.mode in ("RGBA", "LA") or (img.mode == "P" and "transparency" in img.info)`. -/
def hasTransparency (img : PILImage) : Bool :=
  (img.mode = PILMode.RGBA || img.mode = PILMode.LA)
    || (img.mode = PILMode.P && img.transparencyInfo)

/-- The opaque RGB raster fed to the page compositor. -/
structure NormalizedImage where
  width : ℕ
  height : ℕ
  px : ℕ → ℕ → RGBPixel

/-- Transparency resolution, lines 300-306: images with an alpha channel or
a palette transparency entry are composited onto opaque white and the alpha
dropped; all other images are converted directly to RGB. -/
def normalize (img : PILImage) : NormalizedImage :=
  if hasTransparency img then
    { width := img.width, height := img.height
      px := fun x y => alphaOverWhite (img.px x y) }
  else
    { width := img.width, height := img.height
      px := fun x y => dropAlpha (img.px x y) }

/-- Letter portrait page size in points, line 309. -/
def portrait_size : ℚ × ℚ := (612, 792)

/-- Letter landscape page size in points, line 310. -/
def landscape_size : ℚ × ℚ := (792, 612)

/-- Page geometry selection, line 311:
`portrait_size if img.height >= img.width else landscape_size`. -/
def pageSizeFor (img : NormalizedImage) : ℚ × ℚ :=
  if img.width ≤ img.height then portrait_size else landscape_size

/-- The fixed margin of 36 points (0.5 inch), line 316. -/
def margin : ℚ := 36

/-- Error kinds that can surface from the conversion loop.
`zeroDivisionError` is Python's `ZeroDivisionError` from `/` at line 321;
`loadError` is any exception raised by `Image.open` / decoding at line 296;
`invalidImageError` is the error class named by the specification's error
taxonomy — the source never raises it (no such class exists in the code). -/
inductive PyError where
  | zeroDivisionError
  | loadError (path : String)
  | invalidImageError
deriving DecidableEq, Repr

/-- One emitted PDF page: the geometry set by `pdf.setPageSize` (line 313)
and the placement passed to `pdf.drawInlineImage` (line 330), together with
the pixel dimensions of the image drawn on it. -/
structure Page where
  page_w : ℚ
  page_h : ℚ
  x : ℚ
  y : ℚ
  new_w : ℚ
  new_h : ℚ
  img_w : ℕ
  img_h : ℕ
deriving DecidableEq, Repr

deriving instance DecidableEq for Except

/-- Page composition for one normalized image, lines 308-331: select the
page size, compute the printable area inside the fixed margins, the
scale-to-fit factor, and the centred placement.  When the image has a zero
dimension the divisions at line 321 raise `ZeroDivisionError`; the source
contains no guard, so that exception is the result. -/
def composePage (img : NormalizedImage) : Except PyError Page :=
  let ps := pageSizeFor img
  let page_w := ps.1
  let page_h := ps.2
  let available_w := page_w - 2 * margin
  let available_h := page_h - 2 * margin
  if img.width = 0 ∨ img.height = 0 then
    Except.error PyError.zeroDivisionError
  else
    let scale := min (available_w / (img.width : ℚ)) (available_h / (img.height : ℚ))
    let new_w := (img.width : ℚ) * scale
    let new_h := (img.height : ℚ) * scale
    Except.ok
      { page_w := page_w, page_h := page_h
        x := (page_w - new_w) / 2, y := (page_h - new_h) / 2
        new_w := new_w, new_h := new_h
        img_w := img.width, img_h := img.height }

/-- The scale-to-fit factor of line 321, exposed for the statements:
`scale = min(available_w / img.width, available_h / img.height)`. -/
def scaleFor (img : NormalizedImage) : ℚ :=
  let ps := pageSizeFor img
  min ((ps.1 - 2 * margin) / (img.width : ℚ)) ((ps.2 - 2 * margin) / (img.height : ℚ))

/-- Processing of a single image inside the loop, lines 296-331: open the
image (an environment function covering decode and EXIF transposition),
normalize transparency, compose its page. -/
def processImage (load : String → Except PyError PILImage) (p : String) :
    Except PyError Page :=
  match load p with
  | Except.error e => Except.error e
  | Except.ok img => composePage (normalize img)

/-- The conversion loop, lines 291-331, over the remaining image paths.
Returns the paths whose processing was started (the status line at line 292
is set before the image is opened), the pages appended by `pdf.showPage`,
and the first error if one was raised. -/
def runLoop (load : String → Except PyError PILImage) :
    List String → List String × List Page × Option PyError
  | [] => ([], [], none)
  | p :: rest =>
    match processImage load p with
    | Except.error e => ([p], [], some e)
    | Except.ok page =>
      let r := runLoop load rest
      (p :: r.1, page :: r.2.1, r.2.2)

/-- The mutable GUI state touched by `convert_images_to_pdf`. -/
structure GuiState where
  imagePaths : List String
  statusText : String
  outputPdfName : String
deriving DecidableEq, Repr

/-- The environment the method consults: the result of the save-as dialog
(`none` when the user cancels) and the image loader. -/
structure Env where
  saveDialog : Option String
  load : String → Except PyError PILImage

/-- The in-memory PDF document built on the `canvas.Canvas` (line 288). -/
structure Document where
  path : String
  pages : List Page
deriving DecidableEq, Repr

/-- The observable outcome of one invocation of `convert_images_to_pdf`:
final GUI state, the canvas document if one was created, whether
`pdf.save()` ran (line 333), whether the success dialog was shown, and the
paths whose processing was started. -/
structure ConvertResult where
  state : GuiState
  document : Option Document
  saved : Bool
  success : Bool
  touched : List String
deriving DecidableEq, Repr

/-- `os.path.basename`, as used at lines 292 and 334. -/
def basename (p : String) : String :=
  ((p.splitOn "/").getLast?).getD p

/-- The method `convert_images_to_pdf`, lines 266-339.  Empty list: warn
and return (lines 269-272).  Cancelled save dialog: return (lines 283-284).
Otherwise create the canvas, run the loop; on any exception the handler at
lines 337-339 sets the status to `"Error."` and `pdf.save()` never runs;
on success `pdf.save()` runs and the status reports the saved file. -/
def convert_images_to_pdf (s : GuiState) (env : Env) : ConvertResult :=
  if s.imagePaths.isEmpty then
    { state := s, document := none, saved := false, success := false, touched := [] }
  else
    match env.saveDialog with
    | none =>
      { state := s, document := none, saved := false, success := false, touched := [] }
    | some save_path =>
      let r := runLoop env.load s.imagePaths
      match r.2.2 with
      | some _ =>
        { state := { s with statusText := "Error." }
          document := some { path := save_path, pages := r.2.1 }
          saved := false, success := false, touched := r.1 }
      | none =>
        { state := { s with statusText := "Done. Saved: " ++ basename save_path }
          document := some { path := save_path, pages := r.2.1 }
          saved := true, success := true, touched := r.1 }

/-- A solid-colour decoded image of the given dimensions, used for concrete
witnesses: fully opaque RGB of the given size. -/
def solidRGB (w h : ℕ) : PILImage :=
  { mode := PILMode.RGB, transparencyInfo := false, width := w, height := h
    px := fun _ _ => ⟨0, 0, 0, 255⟩ }

/-- Loader for the spec's worked example: three images sized
800×600, 600×800, 800×800. -/
def exampleLoad : String → Except PyError PILImage := fun p =>
  if p = "a" then Except.ok (solidRGB 800 600)
  else if p = "b" then Except.ok (solidRGB 600 800)
  else Except.ok (solidRGB 800 800)

/-- C1: the orientation rule of line 311.  If height ≥ width the page is
portrait 612×792; otherwise landscape 792×612; squares fall in the first
branch, hence portrait.  Evaluated per image: in the concrete three-image
run with sizes 800×600, 600×800, 800×800 the document's pages are sized
landscape, portrait, portrait in that order. -/
theorem orientation_height_ge_width_portrait :
    (∀ img : NormalizedImage, img.width ≤ img.height → pageSizeFor img = portrait_size) ∧
    (∀ img : NormalizedImage, img.height < img.width → pageSizeFor img = landscape_size) ∧
    (∀ img : NormalizedImage, img.width = img.height → pageSizeFor img = portrait_size) ∧
    ((convert_images_to_pdf ⟨["a", "b", "c"], "Ready", ""⟩
        ⟨some "out.pdf", exampleLoad⟩).document.map
      (fun d => d.pages.map (fun pg => (pg.page_w, pg.page_h)))) =
      some [landscape_size, portrait_size, portrait_size] := by
  refine ⟨?_, ?_, ?_, ?_⟩
  · intro img h
    simp [pageSizeFor, h]
  · intro img h
    simp [pageSizeFor, Nat.not_le.mpr h]
  · intro img h
    simp [pageSizeFor, h.le]
  · decide

/-- Witness for the orientation rule: a 600×800 image yields a portrait
page. -/
theorem orientation_height_ge_width_portrait_spot :
    pageSizeFor (normalize (solidRGB 600 800)) = portrait_size :=
  orientation_height_ge_width_portrait.1 (normalize (solidRGB 600 800)) (by decide)

/-- C2 counterexample: an 800×600 image has width ≥ height, yet the emitted
page is landscape, not portrait — the claim's inequality is reversed
relative to line 311. -/
theorem width_ge_height_gives_landscape_cex :
    (normalize (solidRGB 800 600)).height ≤ (normalize (solidRGB 800 600)).width ∧
    pageSizeFor (normalize (solidRGB 800 600)) = landscape_size ∧
    landscape_size ≠ portrait_size := by
  exact ⟨by decide, rfl, by decide⟩

/-- C2 amended: images strictly wider than tall get landscape geometry;
images strictly taller than wide get portrait; squares get portrait. -/
theorem orientation_by_width_amended :
    (∀ img : NormalizedImage, img.height < img.width → pageSizeFor img = landscape_size) ∧
    (∀ img : NormalizedImage, img.width < img.height → pageSizeFor img = portrait_size) ∧
    (∀ img : NormalizedImage, img.width = img.height → pageSizeFor img = portrait_size) := by
  refine ⟨?_, ?_, ?_⟩
  · intro img h
    simp [pageSizeFor, Nat.not_le.mpr h]
  · intro img h
    simp [pageSizeFor, h.le]
  · intro img h
    simp [pageSizeFor, h.le]

/-- Witness for the amended orientation rule: an 800×600 image yields a
landscape page. -/
theorem orientation_by_width_amended_spot :
    pageSizeFor (normalize (solidRGB 800 600)) = landscape_size :=
  orientation_by_width_amended.1 (normalize (solidRGB 800 600)) (by decide)

/-- Auxiliary fact about the scale-to-fit factor `min (aW / w) (aH / h)`
of line 321, for positive `w`, `h`: the scaled dimensions fit in the
available area, at least one is tight, and a strictly smaller image is
scaled strictly up. -/
theorem min_scale_fits (w h aW aH : ℚ) (hw : 0 < w) (hh : 0 < h) :
    w * min (aW / w) (aH / h) ≤ aW ∧
    h * min (aW / w) (aH / h) ≤ aH ∧
    (w * min (aW / w) (aH / h) = aW ∨ h * min (aW / w) (aH / h) = aH) ∧
    (w < aW → h < aH → 1 < min (aW / w) (aH / h)) := by
  have hwa : w * (aW / w) = aW := by
    field_simp
  have hha : h * (aH / h) = aH := by
    field_simp
  refine ⟨?_, ?_, ?_, ?_⟩
  · calc w * min (aW / w) (aH / h) ≤ w * (aW / w) :=
          mul_le_mul_of_nonneg_left (min_le_left _ _) hw.le
      _ = aW := hwa
  · calc h * min (aW / w) (aH / h) ≤ h * (aH / h) :=
          mul_le_mul_of_nonneg_left (min_le_right _ _) hh.le
      _ = aH := hha
  · rcases min_choice (aW / w) (aH / h) with hmin | hmin
    · exact Or.inl (by rw [hmin, hwa])
    · exact Or.inr (by rw [hmin, hha])
  · intro h1 h2
    exact lt_min ((one_lt_div hw).mpr h1) ((one_lt_div hh).mpr h2)

/-- C3: for an image with positive dimensions, the scale of line 321 is
`min((page_w − 72) / width, (page_h − 72) / height)` (the margin of 36 is
subtracted on both sides); the scaled dimensions fit the printable area
with at least one of them tight, an image strictly smaller than the
printable area is scaled strictly up, and the emitted page records exactly
these scaled dimensions. -/
theorem scale_to_fit_spec (img : NormalizedImage)
    (hw : 0 < img.width) (hh : 0 < img.height) :
    scaleFor img =
      min (((pageSizeFor img).1 - 72) / (img.width : ℚ))
          (((pageSizeFor img).2 - 72) / (img.height : ℚ)) ∧
    (img.width : ℚ) * scaleFor img ≤ (pageSizeFor img).1 - 72 ∧
    (img.height : ℚ) * scaleFor img ≤ (pageSizeFor img).2 - 72 ∧
    ((img.width : ℚ) * scaleFor img = (pageSizeFor img).1 - 72 ∨
      (img.height : ℚ) * scaleFor img = (pageSizeFor img).2 - 72) ∧
    ((img.width : ℚ) < (pageSizeFor img).1 - 72 →
      (img.height : ℚ) < (pageSizeFor img).2 - 72 → 1 < scaleFor img) ∧
    ∀ page, composePage img = Except.ok page →
      page.new_w = (img.width : ℚ) * scaleFor img ∧
      page.new_h = (img.height : ℚ) * scaleFor img := by
  have hw' : (0 : ℚ) < (img.width : ℚ) := by exact_mod_cast hw
  have hh' : (0 : ℚ) < (img.height : ℚ) := by exact_mod_cast hh
  have hmargin : (2 : ℚ) * margin = 72 := by norm_num [margin]
  have hscale : scaleFor img =
      min (((pageSizeFor img).1 - 72) / (img.width : ℚ))
          (((pageSizeFor img).2 - 72) / (img.height : ℚ)) := by
    rw [scaleFor, hmargin]
  have hfit := min_scale_fits (img.width : ℚ) (img.height : ℚ)
    ((pageSizeFor img).1 - 72) ((pageSizeFor img).2 - 72) hw' hh'
  refine ⟨hscale, ?_, ?_, ?_, ?_, ?_⟩
  · rw [hscale]; exact hfit.1
  · rw [hscale]; exact hfit.2.1
  · rw [hscale]; exact hfit.2.2.1
  · intro h1 h2; rw [hscale]; exact hfit.2.2.2 h1 h2
  · intro page hpage
    have hcond : ¬(img.width = 0 ∨ img.height = 0) := by
      rintro (h0 | h0) <;> omega
    simp only [composePage, if_neg hcond] at hpage
    rw [Except.ok.injEq] at hpage
    subst hpage
    rw [scaleFor, hmargin]
    exact ⟨rfl, rfl⟩

/-- Witness for the scale rule at a concrete 100×50 image: the scaled
width fits in the printable width. -/
theorem scale_to_fit_spec_spot :
    ((normalize (solidRGB 100 50)).width : ℚ) *
        scaleFor (normalize (solidRGB 100 50)) ≤
      (pageSizeFor (normalize (solidRGB 100 50))).1 - 72 :=
  (scale_to_fit_spec (normalize (solidRGB 100 50)) (by decide) (by decide)).2.1

/-- C9: every emitted page places the image at
`((page_w − new_w)/2, (page_h − new_h)/2)` (lines 326-327), hence the
image's centre coincides with the page's centre on both axes. -/
theorem centering_invariant (img : NormalizedImage) (page : Page)
    (hpage : composePage img = Except.ok page) :
    page.x = (page.page_w - page.new_w) / 2 ∧
    page.y = (page.page_h - page.new_h) / 2 ∧
    page.x + page.new_w / 2 = page.page_w / 2 ∧
    page.y + page.new_h / 2 = page.page_h / 2 := by
  rw [composePage] at hpage
  split at hpage
  · exact absurd hpage (by simp)
  · rw [Except.ok.injEq] at hpage
    subst hpage
    refine ⟨rfl, rfl, by ring, by ring⟩

/-- A white opaque normalized image of the given dimensions, for concrete
evaluations. -/
def solidNorm (w h : ℕ) : NormalizedImage :=
  { width := w, height := h, px := fun _ _ => whiteRGB }

/-- Concrete evaluation of the page compositor on a 4×3 image: landscape
page, scale 180, placement (36, 36), drawn size 720×540. -/
theorem composePage_solidNorm_4_3 :
    composePage (solidNorm 4 3) =
      Except.ok ⟨792, 612, 36, 36, 720, 540, 4, 3⟩ := by
  simp only [composePage, solidNorm]
  norm_num [pageSizeFor, solidNorm, margin, portrait_size, landscape_size,
    min_self]

/-- Witness for the centering invariant at a concrete 4×3 image. -/
theorem centering_invariant_spot :
    (⟨792, 612, 36, 36, 720, 540, 4, 3⟩ : Page).x +
      (⟨792, 612, 36, 36, 720, 540, 4, 3⟩ : Page).new_w / 2 =
      (⟨792, 612, 36, 36, 720, 540, 4, 3⟩ : Page).page_w / 2 :=
  (centering_invariant (solidNorm 4 3)
    ⟨792, 612, 36, 36, 720, 540, 4, 3⟩ composePage_solidNorm_4_3).2.2.1

/-- C4 counterexample: a zero-width image reaches the scale computation and
the run fails with Python's `ZeroDivisionError` from line 321 — not with
the spec's `InvalidImageError`, and not through any explicit guard (the
source has none). -/
theorem zero_width_division_crash_cex :
    composePage (normalize (solidRGB 0 5)) =
      Except.error PyError.zeroDivisionError ∧
    PyError.zeroDivisionError ≠ PyError.invalidImageError := by
  exact ⟨rfl, by decide⟩

/-- C4 amended: an image with zero width or zero height is not rejected by
any explicit check; the divisions at line 321 raise `ZeroDivisionError`,
so page composition fails with that error (caught later by the run's
generic handler). -/
theorem zero_dimension_zero_division (img : NormalizedImage)
    (h : img.width = 0 ∨ img.height = 0) :
    composePage img = Except.error PyError.zeroDivisionError := by
  rw [composePage, if_pos h]

/-- Witness for the zero-dimension behaviour at a concrete 5×0 image. -/
theorem zero_dimension_zero_division_spot :
    composePage (normalize (solidRGB 5 0)) =
      Except.error PyError.zeroDivisionError :=
  zero_dimension_zero_division (normalize (solidRGB 5 0)) (Or.inr rfl)

/-- C5: normalization (lines 300-306) keeps the pixel dimensions and yields
an opaque RGB raster: an image with an alpha channel (RGBA/LA) or a palette
with a transparency entry is composited over opaque white by alpha-over,
so a fully transparent pixel becomes pure white and a fully opaque pixel
keeps its colour; an image without transparency converts directly to RGB. -/
theorem normalization_opaque_rgb (img : PILImage) :
    (normalize img).width = img.width ∧
    (normalize img).height = img.height ∧
    (hasTransparency img = true →
      ∀ x y, (normalize img).px x y = alphaOverWhite (img.px x y) ∧
        ((img.px x y).a = 0 → (normalize img).px x y = whiteRGB) ∧
        ((img.px x y).a = 255 → (normalize img).px x y = dropAlpha (img.px x y))) ∧
    (hasTransparency img = false →
      ∀ x y, (normalize img).px x y = dropAlpha (img.px x y)) := by
  refine ⟨?_, ?_, ?_, ?_⟩
  · by_cases h : hasTransparency img <;> simp [normalize, h]
  · by_cases h : hasTransparency img <;> simp [normalize, h]
  · intro h x y
    refine ⟨by simp [normalize, h], ?_, ?_⟩
    · intro ha
      simp [normalize, h, alphaOverWhite, whiteRGB, ha]
    · intro ha
      simp [normalize, h, alphaOverWhite, dropAlpha, ha]
  · intro h x y
    simp [normalize, h]

/-- A concrete RGBA test image: one fully transparent pixel at `(0,0)`,
one fully opaque coloured pixel elsewhere. -/
def demoTransparent : PILImage :=
  { mode := PILMode.RGBA, transparencyInfo := false, width := 2, height := 1
    px := fun x _ => if x = 0 then ⟨10, 20, 30, 0⟩ else ⟨10, 20, 30, 255⟩ }

/-- Witness for normalization: on the concrete RGBA image the fully
transparent pixel becomes pure white and the fully opaque pixel keeps its
colour. -/
theorem normalization_opaque_rgb_spot :
    (normalize demoTransparent).px 0 0 = whiteRGB ∧
    (normalize demoTransparent).px 1 0 = dropAlpha (demoTransparent.px 1 0) :=
  ⟨((normalization_opaque_rgb demoTransparent).2.2.1 rfl 0 0).2.1 rfl,
    ((normalization_opaque_rgb demoTransparent).2.2.1 rfl 1 0).2.2 rfl⟩

/-- When every path in the list processes successfully, the loop visits
every path and emits one page per path, in order, with no error. -/
theorem runLoop_all_ok (load : String → Except PyError PILImage)
    (f : String → Page) :
    ∀ l : List String, (∀ p ∈ l, processImage load p = Except.ok (f p)) →
      runLoop load l = (l, l.map f, none) := by
  intro l
  induction l with
  | nil => intro _; rfl
  | cons p rest ih =>
    intro h
    have hp := h p (List.mem_cons_self p rest)
    have hrest := ih (fun q hq => h q (List.mem_cons_of_mem p hq))
    simp [runLoop, hp, hrest]

/-- When processing fails at `bad` after a successful prefix `pre`, the
loop stops there: it visits exactly `pre ++ [bad]`, emits only the pages of
`pre`, and reports the error. -/
theorem runLoop_stops_at_error (load : String → Except PyError PILImage)
    (f : String → Page) (e : PyError) :
    ∀ (pre : List String) (bad : String) (post : List String),
      (∀ p ∈ pre, processImage load p = Except.ok (f p)) →
      processImage load bad = Except.error e →
      runLoop load (pre ++ bad :: post) = (pre ++ [bad], pre.map f, some e) := by
  intro pre
  induction pre with
  | nil =>
    intro bad post _ hbad
    simp [runLoop, hbad]
  | cons p rest ih =>
    intro bad post h hbad
    have hp := h p (List.mem_cons_self p rest)
    have hrest := ih bad post (fun q hq => h q (List.mem_cons_of_mem p hq)) hbad
    simp [runLoop, hp, hrest]

/-- C6: with a non-empty path list, a chosen destination, and every image
processing successfully, the run saves one document at the destination
whose pages are exactly the images' pages in input order — in particular
exactly as many pages as input paths. -/
theorem n_images_n_pages (s : GuiState) (env : Env) (dest : String)
    (f : String → Page)
    (hne : s.imagePaths ≠ []) (hdlg : env.saveDialog = some dest)
    (hok : ∀ p ∈ s.imagePaths, processImage env.load p = Except.ok (f p)) :
    (convert_images_to_pdf s env).document =
      some { path := dest, pages := s.imagePaths.map f } ∧
    (convert_images_to_pdf s env).saved = true ∧
    (convert_images_to_pdf s env).success = true ∧
    (s.imagePaths.map f).length = s.imagePaths.length := by
  have hloop := runLoop_all_ok env.load f s.imagePaths hok
  simp [convert_images_to_pdf, List.isEmpty_iff, hne, hdlg, hloop]

/-- Concrete evaluation of one loop step: a constant loader returning a
4×3 opaque image yields the 4×3 landscape page for any path. -/
theorem processImage_demo (p : String) :
    processImage (fun _ => Except.ok (solidRGB 4 3)) p =
      Except.ok ⟨792, 612, 36, 36, 720, 540, 4, 3⟩ := by
  show composePage (normalize (solidRGB 4 3)) =
    Except.ok ⟨792, 612, 36, 36, 720, 540, 4, 3⟩
  calc composePage (normalize (solidRGB 4 3))
      = composePage (solidNorm 4 3) := rfl
    _ = Except.ok ⟨792, 612, 36, 36, 720, 540, 4, 3⟩ := composePage_solidNorm_4_3

/-- Witness for C6 at a concrete one-image run: the document is saved. -/
theorem n_images_n_pages_spot :
    (convert_images_to_pdf ⟨["a"], "Ready", ""⟩
      ⟨some "o.pdf", fun _ => Except.ok (solidRGB 4 3)⟩).saved = true :=
  (n_images_n_pages ⟨["a"], "Ready", ""⟩
    ⟨some "o.pdf", fun _ => Except.ok (solidRGB 4 3)⟩ "o.pdf"
    (fun _ => ⟨792, 612, 36, 36, 720, 540, 4, 3⟩)
    (by simp) rfl (fun p _ => processImage_demo p)).2.1

/-- C7: if processing fails at some image `bad`, the run aborts there: the
paths after `bad` are never started, no page beyond the prefix's pages is
appended, `pdf.save()` never runs, and the status reports the error. -/
theorem error_aborts_run (s : GuiState) (env : Env) (dest : String)
    (pre post : List String) (bad : String) (f : String → Page) (e : PyError)
    (hpaths : s.imagePaths = pre ++ bad :: post)
    (hdlg : env.saveDialog = some dest)
    (hok : ∀ p ∈ pre, processImage env.load p = Except.ok (f p))
    (hbad : processImage env.load bad = Except.error e) :
    (convert_images_to_pdf s env).saved = false ∧
    (convert_images_to_pdf s env).success = false ∧
    (convert_images_to_pdf s env).touched = pre ++ [bad] ∧
    (convert_images_to_pdf s env).document =
      some { path := dest, pages := pre.map f } ∧
    (convert_images_to_pdf s env).state.statusText = "Error." := by
  have hloop := runLoop_stops_at_error env.load f e pre bad post hok hbad
  have hne : s.imagePaths ≠ [] := by
    rw [hpaths]; exact List.append_ne_nil_of_right_ne_nil _ (by simp)
  simp [convert_images_to_pdf, List.isEmpty_iff, hne, hdlg, hpaths, hloop]

/-- Witness for C7 at a concrete run whose only image fails to load:
nothing is saved. -/
theorem error_aborts_run_spot :
    (convert_images_to_pdf ⟨["x"], "Ready", ""⟩
      ⟨some "o.pdf", fun _ => Except.error (PyError.loadError "x")⟩).saved
      = false :=
  (error_aborts_run ⟨["x"], "Ready", ""⟩
    ⟨some "o.pdf", fun _ => Except.error (PyError.loadError "x")⟩ "o.pdf"
    [] [] "x" (fun _ => ⟨792, 612, 36, 36, 720, 540, 4, 3⟩)
    (PyError.loadError "x") rfl rfl (by simp) rfl).1

/-- C8: an empty image list is rejected up front (lines 269-272): the
method returns with the state untouched, no canvas is created, no path is
started, and nothing is saved. -/
theorem empty_input_rejected (s : GuiState) (env : Env)
    (h : s.imagePaths = []) :
    convert_images_to_pdf s env =
      { state := s, document := none, saved := false, success := false
        touched := [] } := by
  simp [convert_images_to_pdf, h]

/-- Witness for C8 at a concrete empty-list state. -/
theorem empty_input_rejected_spot :
    convert_images_to_pdf ⟨[], "Ready", ""⟩
        ⟨some "o.pdf", fun _ => Except.ok (solidRGB 4 3)⟩ =
      { state := ⟨[], "Ready", ""⟩, document := none, saved := false
        success := false, touched := [] } :=
  empty_input_rejected ⟨[], "Ready", ""⟩
    ⟨some "o.pdf", fun _ => Except.ok (solidRGB 4 3)⟩ rfl

/-- C10: whatever the outcome (empty-list warning, cancelled save dialog,
error, or success), `convert_images_to_pdf` leaves the stored image path
list — and the output-name field — unchanged; only the status text and the
produced document vary. -/
theorem image_paths_frame (s : GuiState) (env : Env) :
    (convert_images_to_pdf s env).state.imagePaths = s.imagePaths ∧
    (convert_images_to_pdf s env).state.outputPdfName = s.outputPdfName := by
  simp only [convert_images_to_pdf]
  split
  · exact ⟨rfl, rfl⟩
  · split
    · exact ⟨rfl, rfl⟩
    · split
      · exact ⟨rfl, rfl⟩
      · exact ⟨rfl, rfl⟩

end ImageToPDF
